import Mathlib

/-!
Verification development for the document-extraction and building-suggestion
pipeline (main.py and building_analyzer.py).

Python dictionaries are embedded as association lists `List (String × Value)`
with Python's dict semantics (first matching key wins on lookup; assignment
replaces in place or appends). Numbers are embedded as rationals, strings as
`String`, string lists as `List String`, and `None` as `Value.vNull`. External
effects (the PDF parser and the generative-extraction service) are embedded as
explicit outcome parameters, so every code path of the Python functions —
including the exception handlers — is a branch of a total Lean function.
-/

/-- A value a record field can hold: Python `None`, a number (int/float,
embedded as ℚ), a string, or a list of strings. -/
inductive Value where
  | vNull
  | vNum (q : ℚ)
  | vStr (s : String)
  | vList (l : List String)
deriving DecidableEq, Repr

/-- A Python dict with string keys, as an association list (keys unique in all
records the pipeline builds; lookup returns the first match). -/
abbrev Record := List (String × Value)

/-- The keys of a record, in insertion order. -/
def Record.keys (r : Record) : List String := r.map Prod.fst

/-- Python `d[k]` / `d.get(k)`: first entry with key `k`. -/
def Record.lookup : Record → String → Option Value
  | [], _ => none
  | (k', v) :: r, k => if k = k' then some v else Record.lookup r k

/-- Python `d.get(k, default)`. -/
def Record.getD (r : Record) (k : String) (d : Value) : Value :=
  (Record.lookup r k).getD d

/-- Python `d[k] = v`: replace the value in place if the key exists, else
append the new entry. -/
def Record.set : Record → String → Value → Record
  | [], k, v => [(k, v)]
  | (k', w) :: r, k, v =>
      if k' = k then (k, v) :: r else (k', w) :: Record.set r k v

/-- Python `d.update(u)`: assign each entry of `u` in order. -/
def Record.update (r : Record) (u : Record) : Record :=
  u.foldl (fun acc p => Record.set acc p.1 p.2) r

/-! ## Language detection (main.py `detect_language`) -/

/-- One code point of the Arabic-script character class of main.py's
`arabic_pattern` regex (the five ranges U+0600–U+06FF, U+0750–U+077F,
U+08A0–U+08FF, U+FB50–U+FDFF, U+FE70–U+FEFF). -/
def isArabicChar (c : Char) : Bool :=
  (decide (0x600 ≤ c.toNat) && decide (c.toNat ≤ 0x6FF)) ||
  (decide (0x750 ≤ c.toNat) && decide (c.toNat ≤ 0x77F)) ||
  (decide (0x8A0 ≤ c.toNat) && decide (c.toNat ≤ 0x8FF)) ||
  (decide (0xFB50 ≤ c.toNat) && decide (c.toNat ≤ 0xFDFF)) ||
  (decide (0xFE70 ≤ c.toNat) && decide (c.toNat ≤ 0xFEFF))

/-- main.py `detect_language`: "arabic" iff the regex search finds an
Arabic-script code point, else "english". -/
def detect_language (text : String) : String :=
  if text.data.any isArabicChar then "arabic" else "english"

/-! ## Binarization (main.py `convert_to_binary_data`) -/

/-- A character Python's default `str.strip()` removes (the ASCII whitespace
subset; wider Unicode whitespace is not exercised by this corpus). -/
def pyIsSpace (c : Char) : Bool :=
  c = ' ' || c = '\t' || c = '\n' || c = '\r' ||
  decide (c.toNat = 0xb) || decide (c.toNat = 0xc)

/-- Python `s.strip()`: drop leading and trailing whitespace. -/
def pyStrip (s : String) : String :=
  String.mk (((s.data.dropWhile pyIsSpace).reverse.dropWhile pyIsSpace).reverse)

/-- The per-value rule of main.py `convert_to_binary_data`: numeric → 1 iff
strictly positive; string → 1 iff truthy and non-blank after `strip()`;
anything else (None, lists) → 0. The Python guard `value is not None` on the
numeric branch is vacuous (None is never an int/float) and is not represented. -/
def binarize : Value → ℕ
  | .vNum q => if 0 < q then 1 else 0
  | .vStr s => if s = "" then 0 else (if pyStrip s = "" then 0 else 1)
  | _ => 0

/-- main.py `convert_to_binary_data`: map every field value to its 0/1 image. -/
def convert_to_binary_data (r : Record) : Record :=
  r.map fun p => (p.1, Value.vNum (binarize p.2))

/-! ## PDF text extraction (main.py `load_file`, building_analyzer.py
`load_pdf_text`) -/

/-- Outcome of `page.extract_text()` on one page: a string, `None`
(normalized to "" by `or ""`), or a raised exception. -/
inductive PageResult where
  | text (s : String)
  | noText
  | err
deriving DecidableEq, Repr

/-- The string a page contributes when it does not raise. -/
def pageText : PageResult → String
  | .text s => s
  | _ => ""

/-- Whether the page's `extract_text()` raised. -/
def pageErr : PageResult → Bool
  | .err => true
  | _ => false

/-- Outcome of opening a PDF: a page list, or a raised exception
(corrupt/unreadable file). -/
inductive PdfParse where
  | ok (pages : List PageResult)
  | openErr
deriving Repr

/-- building_analyzer.py `load_pdf_text` (and the identical main.py
`load_file`): `"".join(page.extract_text() or "" for page in reader.pages)`
inside a try/except returning "". A raised exception on any page propagates
out of the join and is caught by the same handler, so the whole document's
text becomes "". -/
def load_pdf_text : PdfParse → String
  | .openErr => ""
  | .ok pages =>
      if pages.any pageErr then "" else String.join (pages.map pageText)

/-- main.py `load_file` is the same code as `load_pdf_text`. -/
def load_file : PdfParse → String := load_pdf_text

/-! ## AI extraction, main.py (`analyze_pdf_with_ai`) -/

/-- Outcome of the generative-extraction call for the financial pipeline:
on success, the validated model dump assigns every schema field a value
(pydantic `model_dump` emits every model field, absent ones as None); on any
exception the handler runs. -/
inductive AIOutcome where
  | ok (assign : String → Value)
  | fail

/-- main.py `analyze_pdf_with_ai`: on success, the model dump keyed exactly by
the schema fields; on any exception, `{field: None for field in
csv_structure.keys()}`. -/
def analyze_pdf_with_ai (schema : List String) (ai : AIOutcome) : Record :=
  match ai with
  | .ok assign => schema.map fun f => (f, assign f)
  | .fail => schema.map fun f => (f, Value.vNull)

/-- One PDF of the financial pipeline, with the outcomes of its external
calls: the sampled schema (`generate_random_csv_structure`), the extracted
image paths, the parse outcome, the AI-call outcome, the `datetime.now()`
value and the file size. -/
structure PdfDoc where
  filename : String
  schema : List String
  imagePaths : List String
  parse : PdfParse
  ai : AIOutcome
  timestamp : String
  sizeMb : ℚ

/-- The metadata dict main.py `process_pdfs_in_directory` merges into each
analysis result via `dict.update`. -/
def metaRecord (d : PdfDoc) (language : String) : Record :=
  [("pdf_filename", Value.vStr d.filename),
   ("detected_language", Value.vStr language),
   ("image_count", Value.vNum d.imagePaths.length),
   ("image_paths", Value.vStr (String.intercalate ";" d.imagePaths)),
   ("processing_timestamp", Value.vStr d.timestamp),
   ("document_size_mb", Value.vNum d.sizeMb)]

/-- The keys of that metadata dict. -/
def mainMetaKeys : List String :=
  ["pdf_filename", "detected_language", "image_count", "image_paths",
   "processing_timestamp", "document_size_mb"]

/-- The body of main.py `process_pdfs_in_directory`'s loop for one PDF:
extract images and text, detect the language, analyze with AI, merge the
metadata. -/
def processOnePdf (d : PdfDoc) : Record :=
  let text := load_file d.parse
  let language := detect_language text
  Record.update (analyze_pdf_with_ai d.schema d.ai) (metaRecord d language)

/-- main.py `process_pdfs_in_directory`: one result appended per PDF file. -/
def process_pdfs_in_directory (docs : List PdfDoc) : List Record :=
  docs.map processOnePdf

/-- main.py `save_to_csv_files`, Arabic partition:
`result.get("detected_language") == "arabic"`. -/
def arabicPartition (results : List Record) : List Record :=
  results.filter fun r =>
    decide (Record.getD r "detected_language" Value.vNull = Value.vStr "arabic")

/-- main.py `save_to_csv_files`, English partition (the `else` branch). -/
def englishPartition (results : List Record) : List Record :=
  results.filter fun r =>
    !(decide (Record.getD r "detected_language" Value.vNull = Value.vStr "arabic"))

/-! ## CSV and JSON writers -/

/-- The shared header computation of `save_language_csv`, `save_binary_csv`,
`save_building_data` and `save_suggestions_data`:
`sorted(list(set of all keys))`. -/
def unionHeader (results : List Record) : List String :=
  List.insertionSort (fun a b => a ≤ b) (results.flatMap Record.keys).dedup

/-- main.py `save_language_csv`: header and rows, where each row is
`{field: result.get(field, "") for field in field_names}`. -/
def save_language_csv (results : List Record) :
    List String × List (List (String × Value)) :=
  let fields := unionHeader results
  (fields, results.map fun r =>
    fields.map fun f => (f, Record.getD r f (Value.vStr "")))

/-- The per-cell conversion of `save_building_data` /
`save_suggestions_data`: a list value becomes `"; ".join(str(v) for v in
value)`; everything else is written as is. -/
def flattenValue : Value → Value
  | .vList l => .vStr (String.intercalate "; " l)
  | v => v

/-- The row `save_building_data` writes for one record over a field list. -/
def buildingCsvRow (fields : List String) (r : Record) :
    List (String × Value) :=
  fields.map fun f => (f, flattenValue (Record.getD r f (Value.vStr "")))

/-- building_analyzer.py `save_building_data`: the CSV view (header and rows,
lists flattened with "; ") and the JSON view (`json.dump(buildings, ...)`,
full fidelity — the in-memory list itself). -/
def save_building_data (buildings : List Record) :
    (List String × List (List (String × Value))) × List Record :=
  let fields := unionHeader buildings
  ((fields, buildings.map (buildingCsvRow fields)), buildings)

/-! ## Building pipeline (building_analyzer.py) -/

/-- The `BuildingInfo` pydantic model's field names, in declaration order;
`model_dump()` of a validated instance has exactly these keys. -/
def buildingInfoFields : List String :=
  ["building_id", "city_name", "building_category", "building_type",
   "building_name", "neighborhood", "construction_year", "building_age",
   "floors_count", "total_area", "structural_condition", "maintenance_status",
   "safety_issues", "required_repairs", "estimated_cost", "priority_level",
   "last_inspection_date", "inspector_name", "report_date", "image_paths",
   "pdf_filename", "processing_timestamp"]

/-- The `BuildingSuggestion` pydantic model's required fields (all `str`). -/
def suggestionRequired : List String :=
  ["building_id", "suggestion_id", "suggestion_type", "title", "description",
   "priority"]

/-- All `BuildingSuggestion` field names, in declaration order. -/
def suggestionFields : List String :=
  ["building_id", "suggestion_id", "suggestion_type", "title", "description",
   "priority", "estimated_cost", "timeline", "benefits", "risks",
   "requirements", "ai_confidence", "generated_timestamp"]

/-- Whether a value is a string (a required `str` field validates). -/
def isStrVal : Value → Bool
  | .vStr _ => true
  | _ => false

/-- Whether a value fits `Optional[float]`. -/
def isOptNum : Value → Bool
  | .vNull => true
  | .vNum _ => true
  | _ => false

/-- Whether a value fits `Optional[str]`. -/
def isOptStr : Value → Bool
  | .vNull => true
  | .vStr _ => true
  | _ => false

/-- Whether a value fits `Optional[List[str]]`. -/
def isOptStrList : Value → Bool
  | .vNull => true
  | .vList _ => true
  | _ => false

/-- `BuildingSuggestion.model_validate(...).model_dump()`: every required
field must be present as a string and every optional field must fit its
declared type (absent → None); on success the dump has exactly the model's
fields, on failure the candidate raises (and is dropped by the caller). -/
def validateSuggestion (r : Record) : Option Record :=
  if (suggestionRequired.all fun f =>
        ((Record.lookup r f).map isStrVal).getD false) &&
     isOptNum (Record.getD r "estimated_cost" Value.vNull) &&
     isOptStr (Record.getD r "timeline" Value.vNull) &&
     isOptStrList (Record.getD r "benefits" Value.vNull) &&
     isOptStrList (Record.getD r "risks" Value.vNull) &&
     isOptStrList (Record.getD r "requirements" Value.vNull) &&
     isOptNum (Record.getD r "ai_confidence" Value.vNull) &&
     isOptStr (Record.getD r "generated_timestamp" Value.vNull)
  then some (suggestionFields.map fun f => (f, Record.getD r f Value.vNull))
  else none

/-- Outcome of the suggestion-generation call after `json.loads`: a raised
exception or non-iterable payload (`err`), a single JSON object (`single`),
or a JSON array of candidate objects (`many`). -/
inductive GenResponse where
  | err
  | single (r : Record)
  | many (rs : List Record)

/-- building_analyzer.py `generate_building_suggestions`: on call failure or
malformed JSON return `[]`; coerce a single object to a one-element list;
validate each candidate independently, dropping the ones that fail. -/
def generate_building_suggestions : GenResponse → List Record
  | .err => []
  | .single r => [r].filterMap validateSuggestion
  | .many rs => rs.filterMap validateSuggestion

/-- One building document of the building pipeline, with its classification
tags from `scan_data_directory`, the generated id, and the outcomes of its
external calls (`aiInfo = none` means the extraction call raised or its
response failed validation). -/
structure BuildingDoc where
  city : String
  category : String
  buildingType : String
  buildingName : String
  pdfFilename : String
  buildingId : String
  imagePaths : List String
  parse : PdfParse
  aiInfo : Option (String → Value)
  suggResp : GenResponse
  timestamp : String

/-- building_analyzer.py `extract_building_info_from_text`: on success the
validated `BuildingInfo` dump; on any exception the literal fallback dict. -/
def extract_building_info_from_text (d : BuildingDoc) : Record :=
  match d.aiInfo with
  | some assign => buildingInfoFields.map fun f => (f, assign f)
  | none =>
      [("building_id", Value.vStr d.buildingId),
       ("city_name", Value.vStr d.city),
       ("building_category", Value.vStr d.category),
       ("building_name", Value.vStr d.buildingName),
       ("pdf_filename", Value.vStr d.pdfFilename),
       ("processing_timestamp", Value.vStr d.timestamp),
       ("structural_condition", Value.vStr "غير محدد"),
       ("maintenance_status", Value.vStr "غير محدد"),
       ("safety_issues", Value.vList []),
       ("required_repairs", Value.vList []),
       ("priority_level", Value.vStr "متوسط")]

/-- The body of building_analyzer.py `process_buildings`' loop for one
building: extract info, then `building_info['image_paths'] = image_paths` and
`building_info['building_type'] = building_type`. -/
def processOneBuilding (d : BuildingDoc) : Record :=
  Record.set
    (Record.set (extract_building_info_from_text d)
      "image_paths" (Value.vList d.imagePaths))
    "building_type" (Value.vStr d.buildingType)

/-- building_analyzer.py `process_buildings`: one building record appended
per discovered report. -/
def process_buildings (docs : List BuildingDoc) : List Record :=
  docs.map processOneBuilding

/-! ## Concrete inputs used to exercise the theorems -/

/-- A building document whose extraction call failed. -/
def fbDoc : BuildingDoc :=
  { city := "Cairo", category := "collapsing", buildingType := "residential",
    buildingName := "B1", pdfFilename := "r.pdf", buildingId := "abc123",
    imagePaths := [], parse := PdfParse.openErr, aiInfo := none,
    suggResp := GenResponse.err, timestamp := "2024-01-01T00:00:00" }

/-- A building document whose extraction call failed (distinct exercise
input for the schema-superset analysis). -/
def cexBDoc : BuildingDoc :=
  { city := "Giza", category := "needs reinforcement", buildingType := "school",
    buildingName := "B2", pdfFilename := "s.pdf", buildingId := "id7",
    imagePaths := [], parse := PdfParse.openErr, aiInfo := none,
    suggResp := GenResponse.err, timestamp := "2024-02-02T00:00:00" }

/-- A building document whose extraction call succeeded (all model fields
null in the dump). -/
def okBDoc : BuildingDoc :=
  { city := "Cairo", category := "collapsing", buildingType := "residential",
    buildingName := "B3", pdfFilename := "t.pdf", buildingId := "id9",
    imagePaths := ["building_images/id9/p1.png"], parse := PdfParse.ok [],
    aiInfo := some fun _ => Value.vNull,
    suggResp := GenResponse.err, timestamp := "2024-03-03T00:00:00" }

/-- A financial-pipeline PDF whose parse and AI call both failed. -/
def wPdfDoc : PdfDoc :=
  { filename := "a.pdf", schema := ["company_name", "total_revenue"],
    imagePaths := [], parse := PdfParse.openErr, ai := AIOutcome.fail,
    timestamp := "2024-01-01T00:00:00", sizeMb := 1 }

/-- A suggestion candidate carrying every required field as a string. -/
def validCandidate : Record :=
  [("building_id", Value.vStr "b1"), ("suggestion_id", Value.vStr "s1"),
   ("suggestion_type", Value.vStr "structural"), ("title", Value.vStr "T"),
   ("description", Value.vStr "D"), ("priority", Value.vStr "high")]

/-- A one-record batch holding a list-valued field. -/
def wBuilding : Record :=
  [("building_id", Value.vStr "b1"),
   ("safety_issues", Value.vList ["cracks", "leaks"])]

/-- Two records with differing key sets, for the header-union theorems. -/
def wBatch : List Record :=
  [[("b", Value.vStr "x")], [("a", Value.vNull)]]

/-! ## Record lemmas -/

theorem Record.lookup_eq_none_iff (r : Record) (k : String) :
    Record.lookup r k = none ↔ k ∉ Record.keys r := by
  induction r with
  | nil => simp [Record.lookup, Record.keys]
  | cons p r ih =>
      obtain ⟨k', v⟩ := p
      by_cases h : k = k' <;> simp [Record.lookup, Record.keys, h, ih]

theorem Record.mem_keys_of_lookup_eq_some {r : Record} {k : String} {v : Value}
    (h : Record.lookup r k = some v) : k ∈ Record.keys r := by
  by_contra hk
  rw [← Record.lookup_eq_none_iff] at hk
  rw [hk] at h
  exact Option.noConfusion h

theorem Record.lookup_set_self (r : Record) (k : String) (v : Value) :
    Record.lookup (Record.set r k v) k = some v := by
  induction r with
  | nil => simp [Record.set, Record.lookup]
  | cons p r ih =>
      obtain ⟨k', w⟩ := p
      by_cases h : k' = k
      · simp [Record.set, h, Record.lookup]
      · have h2 : k ≠ k' := fun hh => h hh.symm
        simp [Record.set, h, Record.lookup, h2, ih]

theorem Record.lookup_set_ne (r : Record) (k : String) (v : Value)
    {k' : String} (h : k' ≠ k) :
    Record.lookup (Record.set r k v) k' = Record.lookup r k' := by
  induction r with
  | nil => simp [Record.set, Record.lookup, h]
  | cons p r ih =>
      obtain ⟨k0, w⟩ := p
      by_cases h0 : k0 = k
      · subst h0
        simp [Record.set, Record.lookup, h]
      · by_cases h1 : k' = k0 <;> simp [Record.set, h0, Record.lookup, h1, ih]

theorem Record.mem_keys_set (r : Record) (k : String) (v : Value) (a : String) :
    a ∈ Record.keys (Record.set r k v) ↔ a ∈ Record.keys r ∨ a = k := by
  induction r with
  | nil => simp [Record.set, Record.keys]
  | cons p r ih =>
      obtain ⟨k0, w⟩ := p
      by_cases h0 : k0 = k
      · subst h0
        simp [Record.set, Record.keys]
        tauto
      · simp [Record.set, h0, Record.keys] at ih ⊢
        tauto

theorem Record.mem_keys_update (r u : Record) (a : String) :
    a ∈ Record.keys (Record.update r u) ↔
      a ∈ Record.keys r ∨ a ∈ Record.keys u := by
  induction u generalizing r with
  | nil => simp [Record.update, Record.keys]
  | cons p u ih =>
      obtain ⟨k, v⟩ := p
      have e : Record.update r ((k, v) :: u) = Record.update (Record.set r k v) u := rfl
      rw [e, ih, Record.mem_keys_set]
      simp [Record.keys]
      tauto

theorem Record.lookup_map_pair (fields : List String) (g : String → Value)
    {f : String} (hf : f ∈ fields) :
    Record.lookup (fields.map fun x => (x, g x)) f = some (g f) := by
  induction fields with
  | nil => cases hf
  | cons x fields ih =>
      by_cases h : f = x
      · subst h
        simp [Record.lookup]
      · rcases List.mem_cons.mp hf with h' | h'
        · exact absurd h' h
        · simp [Record.lookup, h, ih h']

theorem Record.keys_map_pair (fields : List String) (g : String → Value) :
    Record.keys (fields.map fun x => (x, g x)) = fields := by
  induction fields with
  | nil => rfl
  | cons x fields ih => simp [Record.keys] at ih ⊢; exact ih

/-! ## General helper lemmas -/

theorem length_filter_split {α : Type} (l : List α) (p : α → Bool) :
    (l.filter p).length + (l.filter fun a => !(p a)).length = l.length := by
  induction l with
  | nil => rfl
  | cons a l ih =>
      by_cases h : p a = true <;>
        simp [List.filter, h, Nat.succ_eq_add_one] <;> omega

theorem string_join_append (l1 l2 : List String) :
    String.join (l1 ++ l2) = String.join l1 ++ String.join l2 := by
  apply String.ext
  simp [String.join_eq, String.data_append]

/-- Helper: the 0/1 rule is a fixed point on its own outputs. -/
theorem binarize_binarize (v : Value) :
    binarize (Value.vNum (binarize v)) = binarize v := by
  have h : binarize v = 0 ∨ binarize v = 1 := by
    cases v with
    | vNum q => by_cases h : 0 < q <;> simp [binarize, h]
    | vStr s =>
        by_cases h0 : s = ""
        · simp [binarize, h0]
        · by_cases h1 : pyStrip s = "" <;> simp [binarize, h0, h1]
    | _ => simp [binarize]
  rcases h with h | h <;> rw [h] <;> norm_num [binarize]

/-- C4: the binarization rule is total (always 0 or 1), maps a value to 1
exactly when it is a strictly positive number or a string that is non-empty
after trimming, and converting an already-converted record again yields the
same record. -/
theorem binarize_total_iff_idempotent :
    (∀ v, binarize v = 0 ∨ binarize v = 1)
    ∧ (∀ v, binarize v = 1 ↔
        ((∃ q, v = Value.vNum q ∧ 0 < q) ∨
         (∃ s, v = Value.vStr s ∧ pyStrip s ≠ "")))
    ∧ (∀ r : Record, convert_to_binary_data (convert_to_binary_data r) =
        convert_to_binary_data r) := by
  refine ⟨?_, ?_, ?_⟩
  · intro v
    cases v with
    | vNum q => by_cases h : 0 < q <;> simp [binarize, h]
    | vStr s =>
        by_cases h0 : s = ""
        · simp [binarize, h0]
        · by_cases h1 : pyStrip s = "" <;> simp [binarize, h0, h1]
    | _ => simp [binarize]
  · intro v
    cases v with
    | vNull => simp [binarize]
    | vNum q =>
        by_cases h : 0 < q <;> simp [binarize, h]
    | vStr s =>
        by_cases h0 : s = ""
        · subst h0
          simp [binarize, pyStrip, pyIsSpace]
        · by_cases h1 : pyStrip s = "" <;> simp [binarize, h0, h1]
    | vList l => simp [binarize]
  · intro r
    unfold convert_to_binary_data
    rw [List.map_map]
    apply List.map_congr_left
    intro p _
    simp [Function.comp, binarize_binarize]

/-- C8 counterexample: with page 1 yielding "abc" and page 2 raising inside
`extract_text`, the code returns "" for the whole document, not the "abc"
that per-page isolation would give. -/
theorem load_pdf_text_page_error_empties_document :
    load_pdf_text (PdfParse.ok [PageResult.text "abc", PageResult.err]) = ""
    ∧ String.join ([PageResult.text "abc", PageResult.err].map pageText) = "abc"
    ∧ ("" : String) ≠ "abc" := by
  refine ⟨rfl, ?_, by decide⟩
  decide

/-- C8 amended: text extraction concatenates the pages' text in page order
with no separators, and a page that yields no text contributes the empty
string while the other pages are kept — provided no page raises; if any page
raises, or the document cannot be opened, the whole document's text is "". -/
theorem load_pdf_text_concatenation :
    (load_pdf_text PdfParse.openErr = "")
    ∧ (∀ pages, (∀ p ∈ pages, pageErr p = false) →
        load_pdf_text (PdfParse.ok pages) = String.join (pages.map pageText))
    ∧ (∀ pre post, (∀ p ∈ pre, pageErr p = false) →
        (∀ p ∈ post, pageErr p = false) →
        load_pdf_text (PdfParse.ok (pre ++ PageResult.noText :: post)) =
          load_pdf_text (PdfParse.ok pre) ++ load_pdf_text (PdfParse.ok post))
    ∧ (∀ pages, pages.any pageErr = true →
        load_pdf_text (PdfParse.ok pages) = "") := by
  have hany : ∀ pages : List PageResult, (∀ p ∈ pages, pageErr p = false) →
      pages.any pageErr = false := by
    intro pages h
    rw [List.any_eq_false]
    intro p hp
    simp [h p hp]
  refine ⟨rfl, ?_, ?_, ?_⟩
  · intro pages h
    simp [load_pdf_text, hany pages h]
  · intro pre post hpre hpost
    have hall : ∀ p ∈ pre ++ PageResult.noText :: post, pageErr p = false := by
      intro p hp
      rcases List.mem_append.mp hp with h | h
      · exact hpre p h
      · rcases List.mem_cons.mp h with rfl | h
        · rfl
        · exact hpost p h
    rw [load_pdf_text, if_neg (by simp [hany _ hall]),
        load_pdf_text, if_neg (by simp [hany _ hpre]),
        load_pdf_text, if_neg (by simp [hany _ hpost])]
    rw [List.map_append, string_join_append]
    simp [String.join, pageText]
  · intro pages h
    simp [load_pdf_text, h]

/-- C8 witness: the amended statement applied to a concrete two-page
document with a blank second page. -/
theorem load_pdf_text_concatenation_witness :
    load_pdf_text (PdfParse.ok [PageResult.text "abc", PageResult.noText]) =
      String.join ([PageResult.text "abc", PageResult.noText].map pageText) :=
  load_pdf_text_concatenation.2.1 [PageResult.text "abc", PageResult.noText]
    (by decide)

/-- Helper: the detected-language entry of a processed financial record. -/
theorem lookup_processOnePdf_language (d : PdfDoc) :
    Record.lookup (processOnePdf d) "detected_language" =
      some (Value.vStr (detect_language (load_file d.parse))) := by
  show Record.lookup
    (Record.update (analyze_pdf_with_ai d.schema d.ai)
      (metaRecord d (detect_language (load_file d.parse)))) "detected_language" = _
  unfold metaRecord Record.update
  simp only [List.foldl]
  rw [Record.lookup_set_ne _ _ _ (by decide), Record.lookup_set_ne _ _ _ (by decide),
      Record.lookup_set_ne _ _ _ (by decide), Record.lookup_set_ne _ _ _ (by decide),
      Record.lookup_set_self]

/-- C10: `detect_language` returns "arabic" exactly when the text contains a
code point in one of the five Arabic script ranges, "english" otherwise (in
particular on the empty text), and a document whose text extraction yields ""
is routed to the English-partition CSV. -/
theorem detect_language_ranges_and_routing :
    (∀ t : String, detect_language t = "arabic" ↔
      ∃ c ∈ t.data,
        ((0x600 ≤ c.toNat ∧ c.toNat ≤ 0x6FF) ∨
         (0x750 ≤ c.toNat ∧ c.toNat ≤ 0x77F) ∨
         (0x8A0 ≤ c.toNat ∧ c.toNat ≤ 0x8FF) ∨
         (0xFB50 ≤ c.toNat ∧ c.toNat ≤ 0xFDFF) ∨
         (0xFE70 ≤ c.toNat ∧ c.toNat ≤ 0xFEFF)))
    ∧ (∀ t : String, detect_language t = "arabic" ∨ detect_language t = "english")
    ∧ detect_language "" = "english"
    ∧ (∀ (docs : List PdfDoc) (d : PdfDoc), d ∈ docs →
        load_file d.parse = "" →
        processOnePdf d ∈ englishPartition (process_pdfs_in_directory docs)) := by
  have key : ∀ t : String, detect_language t = "arabic" ↔
      t.data.any isArabicChar = true := by
    intro t
    unfold detect_language
    by_cases h : t.data.any isArabicChar = true <;> simp [h]
  refine ⟨?_, ?_, rfl, ?_⟩
  · intro t
    rw [key, List.any_eq_true]
    simp only [isArabicChar, Bool.or_eq_true, Bool.and_eq_true,
      decide_eq_true_eq]
    exact exists_congr fun c => and_congr_right fun _ => by tauto
  · intro t
    unfold detect_language
    by_cases h : t.data.any isArabicChar = true <;> simp [h]
  · intro docs d hd htext
    unfold englishPartition process_pdfs_in_directory
    apply List.mem_filter.mpr
    refine ⟨List.mem_map_of_mem processOnePdf hd, ?_⟩
    have hl : Record.lookup (processOnePdf d) "detected_language" =
        some (Value.vStr "english") := by
      rw [lookup_processOnePdf_language, htext]
      rfl
    simp [Record.getD, hl]

/-- C10 witness: a one-document batch whose PDF fails to open is classified
"english" and lands in the English partition. -/
theorem detect_language_ranges_and_routing_witness :
    processOnePdf wPdfDoc ∈ englishPartition (process_pdfs_in_directory [wPdfDoc]) :=
  detect_language_ranges_and_routing.2.2.2 [wPdfDoc] wPdfDoc (by simp) rfl

/-- C1: both pipelines emit exactly one record per discovered document —
whatever the per-document outcomes — and the CSV views carry exactly one row
per record: the two language partitions together have one row per document,
and buildings.csv has one row per building. -/
theorem one_row_per_document (docs : List PdfDoc) (bdocs : List BuildingDoc) :
    (process_pdfs_in_directory docs).length = docs.length
    ∧ (arabicPartition (process_pdfs_in_directory docs)).length +
        (englishPartition (process_pdfs_in_directory docs)).length = docs.length
    ∧ ((save_language_csv (arabicPartition (process_pdfs_in_directory docs))).2).length +
        ((save_language_csv (englishPartition (process_pdfs_in_directory docs))).2).length
        = docs.length
    ∧ (process_buildings bdocs).length = bdocs.length
    ∧ ((save_building_data (process_buildings bdocs)).1.2).length = bdocs.length := by
  have hsplit : (arabicPartition (process_pdfs_in_directory docs)).length +
      (englishPartition (process_pdfs_in_directory docs)).length = docs.length := by
    unfold arabicPartition englishPartition
    rw [length_filter_split]
    simp [process_pdfs_in_directory]
  refine ⟨by simp [process_pdfs_in_directory], hsplit, ?_, by simp [process_buildings], ?_⟩
  · simpa [save_language_csv] using hsplit
  · simp [save_building_data, process_buildings, buildingCsvRow]

/-- C2: when the building-extraction call fails, the fallback record carries
the context metadata (id, city, category, building name, filename,
timestamp), sets both condition fields to the explicit "غير محدد"
(undetermined) sentinel, the safety/repairs lists to empty, the priority to
the neutral "متوسط" (medium) default, and no other schema field is present. -/
theorem extract_building_info_fallback (d : BuildingDoc) (h : d.aiInfo = none) :
    Record.lookup (extract_building_info_from_text d) "building_id"
        = some (Value.vStr d.buildingId)
    ∧ Record.lookup (extract_building_info_from_text d) "city_name"
        = some (Value.vStr d.city)
    ∧ Record.lookup (extract_building_info_from_text d) "building_category"
        = some (Value.vStr d.category)
    ∧ Record.lookup (extract_building_info_from_text d) "building_name"
        = some (Value.vStr d.buildingName)
    ∧ Record.lookup (extract_building_info_from_text d) "pdf_filename"
        = some (Value.vStr d.pdfFilename)
    ∧ Record.lookup (extract_building_info_from_text d) "processing_timestamp"
        = some (Value.vStr d.timestamp)
    ∧ Record.lookup (extract_building_info_from_text d) "structural_condition"
        = some (Value.vStr "غير محدد")
    ∧ Record.lookup (extract_building_info_from_text d) "maintenance_status"
        = some (Value.vStr "غير محدد")
    ∧ Record.lookup (extract_building_info_from_text d) "safety_issues"
        = some (Value.vList [])
    ∧ Record.lookup (extract_building_info_from_text d) "required_repairs"
        = some (Value.vList [])
    ∧ Record.lookup (extract_building_info_from_text d) "priority_level"
        = some (Value.vStr "متوسط")
    ∧ (∀ f ∈ ["building_type", "neighborhood", "construction_year",
        "building_age", "floors_count", "total_area", "estimated_cost",
        "last_inspection_date", "inspector_name", "report_date",
        "image_paths"],
        Record.lookup (extract_building_info_from_text d) f = none) := by
  have e : extract_building_info_from_text d =
      [("building_id", Value.vStr d.buildingId),
       ("city_name", Value.vStr d.city),
       ("building_category", Value.vStr d.category),
       ("building_name", Value.vStr d.buildingName),
       ("pdf_filename", Value.vStr d.pdfFilename),
       ("processing_timestamp", Value.vStr d.timestamp),
       ("structural_condition", Value.vStr "غير محدد"),
       ("maintenance_status", Value.vStr "غير محدد"),
       ("safety_issues", Value.vList []),
       ("required_repairs", Value.vList []),
       ("priority_level", Value.vStr "متوسط")] := by
    unfold extract_building_info_from_text
    rw [h]
  rw [e]
  refine ⟨rfl, rfl, rfl, rfl, rfl, rfl, rfl, rfl, rfl, rfl, rfl, ?_⟩
  intro f hf
  fin_cases hf <;> rfl

/-- C2 witness: the fallback shape at a concrete failed document. -/
theorem extract_building_info_fallback_witness :
    Record.lookup (extract_building_info_from_text fbDoc) "building_id"
        = some (Value.vStr fbDoc.buildingId)
    ∧ Record.lookup (extract_building_info_from_text fbDoc) "city_name"
        = some (Value.vStr fbDoc.city)
    ∧ Record.lookup (extract_building_info_from_text fbDoc) "building_category"
        = some (Value.vStr fbDoc.category)
    ∧ Record.lookup (extract_building_info_from_text fbDoc) "building_name"
        = some (Value.vStr fbDoc.buildingName)
    ∧ Record.lookup (extract_building_info_from_text fbDoc) "pdf_filename"
        = some (Value.vStr fbDoc.pdfFilename)
    ∧ Record.lookup (extract_building_info_from_text fbDoc) "processing_timestamp"
        = some (Value.vStr fbDoc.timestamp)
    ∧ Record.lookup (extract_building_info_from_text fbDoc) "structural_condition"
        = some (Value.vStr "غير محدد")
    ∧ Record.lookup (extract_building_info_from_text fbDoc) "maintenance_status"
        = some (Value.vStr "غير محدد")
    ∧ Record.lookup (extract_building_info_from_text fbDoc) "safety_issues"
        = some (Value.vList [])
    ∧ Record.lookup (extract_building_info_from_text fbDoc) "required_repairs"
        = some (Value.vList [])
    ∧ Record.lookup (extract_building_info_from_text fbDoc) "priority_level"
        = some (Value.vStr "متوسط")
    ∧ (∀ f ∈ ["building_type", "neighborhood", "construction_year",
        "building_age", "floors_count", "total_area", "estimated_cost",
        "last_inspection_date", "inspector_name", "report_date",
        "image_paths"],
        Record.lookup (extract_building_info_from_text fbDoc) f = none) :=
  extract_building_info_fallback fbDoc rfl

/-- C3: for non-empty batches, the CSV header is the sorted, duplicate-free
union of all field names in the batch, and every row of both writers carries
exactly the header's columns (no ragged rows). -/
theorem csv_header_union_no_ragged_rows (results buildings : List Record)
    (h1 : results ≠ []) (h2 : buildings ≠ []) :
    List.Sorted (fun a b : String => a ≤ b) (unionHeader results)
    ∧ (unionHeader results).Nodup
    ∧ (∀ f, f ∈ unionHeader results ↔ ∃ r ∈ results, f ∈ Record.keys r)
    ∧ (∀ row ∈ (save_language_csv results).2,
        row.map Prod.fst = (save_language_csv results).1)
    ∧ (∀ row ∈ (save_building_data buildings).1.2,
        row.map Prod.fst = (save_building_data buildings).1.1) := by
  refine ⟨?_, ?_, ?_, ?_, ?_⟩
  · exact List.sorted_insertionSort _ _
  · exact ((List.perm_insertionSort _ _).nodup_iff).mpr (List.nodup_dedup _)
  · intro f
    unfold unionHeader
    rw [(List.perm_insertionSort _ _).mem_iff, List.mem_dedup, List.mem_flatMap]
  · intro row hrow
    simp only [save_language_csv, List.mem_map] at hrow
    obtain ⟨r, _, rfl⟩ := hrow
    exact Record.keys_map_pair _ _
  · intro row hrow
    simp only [save_building_data, buildingCsvRow, List.mem_map] at hrow
    obtain ⟨r, _, rfl⟩ := hrow
    exact Record.keys_map_pair _ _

/-- C3 witness: the header of a concrete two-record batch with differing key
sets is sorted. -/
theorem csv_header_union_no_ragged_rows_witness :
    List.Sorted (fun a b : String => a ≤ b) (unionHeader wBatch) :=
  (csv_header_union_no_ragged_rows wBatch [wBuilding]
    (by decide) (by decide)).1

/-- C5: suggestion generation never propagates a failure: a total call
failure yields `[]`, a single-object response behaves as its one-element
list coercion, the result is exactly the independent validation of each
candidate, and dropping an invalid candidate leaves the others' result
unchanged. -/
theorem generate_suggestions_boundary :
    generate_building_suggestions GenResponse.err = []
    ∧ (∀ r, generate_building_suggestions (GenResponse.single r) =
        generate_building_suggestions (GenResponse.many [r]))
    ∧ (∀ rs, generate_building_suggestions (GenResponse.many rs) =
        rs.filterMap validateSuggestion)
    ∧ (∀ xs ys bad, validateSuggestion bad = none →
        generate_building_suggestions (GenResponse.many (xs ++ bad :: ys)) =
          generate_building_suggestions (GenResponse.many (xs ++ ys))) := by
  refine ⟨rfl, fun r => rfl, fun rs => rfl, ?_⟩
  intro xs ys bad h
  simp [generate_building_suggestions, List.filterMap_append,
    List.filterMap_cons, h]

/-- C5 witness: an invalid candidate (the empty object) is dropped without
affecting the (empty) remainder. -/
theorem generate_suggestions_boundary_witness :
    generate_building_suggestions (GenResponse.many [([] : Record)]) =
      generate_building_suggestions (GenResponse.many []) :=
  generate_suggestions_boundary.2.2.2 [] [] [] (by decide)

/-- C6 counterexample: a response listing six valid candidates yields six
suggestion records — the code never truncates to five; the 3–5 range is only
requested in the prompt. -/
theorem generate_suggestions_can_exceed_five :
    5 < (generate_building_suggestions
      (GenResponse.many (List.replicate 6 validCandidate))).length := by
  decide

/-- C6 amended: the number of generated suggestions is bounded by the number
of candidates in the response (0 on failure, at most 1 for a single object,
at most the list length for a list) — there is no fixed cap of 5. -/
theorem generate_suggestions_cardinality_bound :
    generate_building_suggestions GenResponse.err = []
    ∧ (∀ r, (generate_building_suggestions (GenResponse.single r)).length ≤ 1)
    ∧ (∀ rs, (generate_building_suggestions (GenResponse.many rs)).length
        ≤ rs.length) := by
  refine ⟨rfl, ?_, ?_⟩
  · intro r
    simpa [generate_building_suggestions]
      using List.length_filterMap_le validateSuggestion [r]
  · intro rs
    simpa [generate_building_suggestions]
      using List.length_filterMap_le validateSuggestion rs

/-- C7 counterexample: after a failed extraction the processed building
record lacks the schema field "neighborhood", so its field set is not a
superset of the schema's keys. -/
theorem building_fallback_misses_schema_field :
    "neighborhood" ∈ buildingInfoFields
    ∧ "neighborhood" ∉ Record.keys (processOneBuilding cexBDoc) := by
  refine ⟨by decide, by decide⟩

/-- C7 amended: the superset invariant holds for every financial-pipeline
record (schema keys plus the six fixed metadata keys) and for every
building-pipeline record produced from a successful extraction; the building
fallback path is the exception. -/
theorem record_field_superset_amended :
    (∀ (d : PdfDoc) (f : String), f ∈ d.schema ∨ f ∈ mainMetaKeys →
        f ∈ Record.keys (processOnePdf d))
    ∧ (∀ (d : BuildingDoc) (g : String → Value), d.aiInfo = some g →
        ∀ f ∈ buildingInfoFields, f ∈ Record.keys (processOneBuilding d)) := by
  constructor
  · intro d f hf
    show f ∈ Record.keys (Record.update (analyze_pdf_with_ai d.schema d.ai)
      (metaRecord d (detect_language (load_file d.parse))))
    rw [Record.mem_keys_update]
    rcases hf with hf | hf
    · left
      cases hai : d.ai <;>
        simp [analyze_pdf_with_ai, Record.keys, hf]
    · right
      have e : Record.keys (metaRecord d (detect_language (load_file d.parse)))
          = mainMetaKeys := rfl
      rw [e]
      exact hf
  · intro d g hg f hf
    unfold processOneBuilding
    rw [Record.mem_keys_set]
    left
    rw [Record.mem_keys_set]
    left
    have e : extract_building_info_from_text d =
        buildingInfoFields.map fun x => (x, g x) := by
      unfold extract_building_info_from_text
      rw [hg]
    rw [e, Record.keys_map_pair]
    exact hf

/-- C7 witness: the amended superset statement at a concrete financial
document and a concrete successfully-extracted building. -/
theorem record_field_superset_amended_witness :
    "company_name" ∈ Record.keys (processOnePdf wPdfDoc)
    ∧ "neighborhood" ∈ Record.keys (processOneBuilding okBDoc) :=
  ⟨record_field_superset_amended.1 wPdfDoc "company_name" (Or.inl (by decide)),
   record_field_superset_amended.2 okBDoc (fun _ => Value.vNull) rfl
     "neighborhood" (by decide)⟩

/-- C9: a list-valued field survives the JSON view exactly (the dumped batch
is the in-memory batch, same elements, same order) while the CSV view writes
that field as its elements joined with "; ". -/
theorem list_field_json_exact_csv_joined (buildings : List Record)
    (r : Record) (f : String) (l : List String)
    (hr : r ∈ buildings) (hf : Record.lookup r f = some (Value.vList l)) :
    (save_building_data buildings).2 = buildings
    ∧ r ∈ (save_building_data buildings).2
    ∧ Record.lookup r f = some (Value.vList l)
    ∧ f ∈ (save_building_data buildings).1.1
    ∧ buildingCsvRow (unionHeader buildings) r ∈ (save_building_data buildings).1.2
    ∧ Record.lookup (buildingCsvRow (unionHeader buildings) r) f =
        some (Value.vStr (String.intercalate "; " l)) := by
  have hmem : f ∈ unionHeader buildings := by
    unfold unionHeader
    rw [(List.perm_insertionSort _ _).mem_iff, List.mem_dedup, List.mem_flatMap]
    exact ⟨r, hr, Record.mem_keys_of_lookup_eq_some hf⟩
  refine ⟨rfl, hr, hf, hmem, ?_, ?_⟩
  · exact List.mem_map_of_mem _ hr
  · unfold buildingCsvRow
    rw [Record.lookup_map_pair _ _ hmem]
    simp [Record.getD, hf, flattenValue]

/-- C9 witness: a concrete record whose "safety_issues" list becomes
"cracks; leaks" in its CSV row. -/
theorem list_field_json_exact_csv_joined_witness :
    Record.lookup (buildingCsvRow (unionHeader [wBuilding]) wBuilding)
        "safety_issues" =
      some (Value.vStr (String.intercalate "; " ["cracks", "leaks"])) :=
  (list_field_json_exact_csv_joined [wBuilding] wBuilding "safety_issues"
    ["cracks", "leaks"] (by decide) (by decide)).2.2.2.2.2
